import Mathlib

/-
Verification of the parachain AURA consensus orchestrator
(`client/consensus/aura/src/lib.rs`): the `produce_candidate` operation of
`AuraConsensus`, its `inherent_data` helper, the `Clone` implementation and
the worker construction in `AuraConsensus::new`.

The Rust code is embedded shallowly:
- `std::time::Duration` (the result of `SystemTime::now().duration_since(UNIX_EPOCH)`)
  is a pair of seconds (a `u64`) and nanoseconds (`< 10^9`);
- the clock readings, the inherent-data-provider factory (`CIDP`), the provider
  set, and the slot worker are capabilities supplied by an `Env` record;
- the `.unwrap()` on `duration_since` is modelled as an explicit panic outcome
  (`Except.error ()`), and the calls made to the worker's `on_slot` are logged
  so that "the engine receives zero calls" is expressible;
- the `parking_lot::Mutex` around the worker is modelled as a small transition
  system over the phases of concurrent `produce_candidate` invocations.
-/

namespace Cumulus

/-- A `std::time::Duration`: seconds stored in a `u64` and a nanosecond part
below one billion.  This is the type returned by
`SystemTime::now().duration_since(SystemTime::UNIX_EPOCH)` on line 203. -/
structure Duration where
  secs : Nat
  nanos : Nat
  secs_lt : secs < 2 ^ 64
  nanos_lt : nanos < 1000000000

/-- Rust `Duration::as_millis`: `secs * 1000 + nanos / 1_000_000` (computed in
`u128`, which cannot overflow for these bounds). -/
def Duration.as_millis (d : Duration) : Nat :=
  d.secs * 1000 + d.nanos / 1000000

/-- Type `sc_consensus_slots::SlotResult`: the value a successful `on_slot` resolves
to, carrying the authored block and its storage proof. -/
structure SlotResult (B Pf : Type) where
  block : B
  storage_proof : Pf

/-- Type `cumulus_client_consensus_common::ParachainCandidate`: the value
`produce_candidate` returns on success (lines 221-224). -/
structure ParachainCandidate (B Pf : Type) where
  block : B
  proof : Pf

/-- Type `sc_consensus_slots::SlotInfo` as constructed on lines 207-216: the slot
descriptor handed to the worker.  `slot` is the `u64` slot number, `duration`
and `ends_at` are in milliseconds; `ends_at` is a reading of the monotonic
`Instant` clock plus the 500 ms budget. -/
structure SlotInfo (ID Hdr : Type) where
  slot : Nat
  duration : Nat
  inherent_data : ID
  chain_head : Hdr
  timestamp : Duration
  ends_at : Nat

/-- The capabilities `produce_candidate` consumes, bundled as an environment:
the two clock readings it takes, the header hash function, the
`CreateInherentDataProviders` factory held in `self.inherent_data_providers`,
the provider set's `create_inherent_data`, and the slot worker's `on_slot`
behaviour (the eventual value its returned future resolves to). -/
structure Env (H PH PVD Hdr Prov ID B Pf E : Type) where
  clock_now : Except Unit Duration
  instant_now_ms : Nat
  head_hash : Hdr → H
  create_inherent_data_providers : H → PH × PVD → Except E Prov
  create_inherent_data : Prov → Except E ID
  on_slot : SlotInfo ID Hdr → Option (SlotResult B Pf)

section Model

variable {H PH PVD Hdr Prov ID B Pf E : Type}

/-- Method `AuraConsensus::inherent_data` (lines 156-185): ask the factory for a
provider set for `(parent, (relay_parent, validation_data))`; on error log and
return `None`; otherwise ask the provider set to create the inherent data; on
error log and return `None`; otherwise return the data. -/
def inherent_data (env : Env H PH PVD Hdr Prov ID B Pf E) (parent : H)
    (validation_data : PVD) (relay_parent : PH) : Option ID :=
  match env.create_inherent_data_providers parent (relay_parent, validation_data) with
  | Except.error _ => none
  | Except.ok providers =>
    match env.create_inherent_data providers with
    | Except.error _ => none
    | Except.ok data => some data

/-- The slot computation on line 208: `(timestamp.as_millis() / 12000) as u64`.
The division is performed in `u128` and the quotient is then truncated to
`u64`, hence the `% 2 ^ 64`. -/
def slotOfMillis (t : Nat) : Nat :=
  t / 12000 % 2 ^ 64

/-- The `SlotInfo` literal of lines 207-216, given the timestamp taken at the
start of the invocation and the assembled inherent data.  `ends_at` is
`Instant::now() + Duration::from_millis(500)`, where `Instant::now()` is
sampled when this field is evaluated, i.e. after inherent-data assembly. -/
def mkSlotInfo (env : Env H PH PVD Hdr Prov ID B Pf E) (parent : Hdr)
    (timestamp : Duration) (data : ID) : SlotInfo ID Hdr :=
  { slot := slotOfMillis timestamp.as_millis
  , duration := 12000
  , inherent_data := data
  , chain_head := parent
  , timestamp := timestamp
  , ends_at := env.instant_now_ms + 500 }

/-- Observable outcome of one `produce_candidate` invocation: the returned
value (`Except.error ()` models a panic of the `.unwrap()` on line 205) and
the list of descriptors passed to the worker's `on_slot`. -/
structure Run (ID Hdr B Pf : Type) where
  result : Except Unit (Option (ParachainCandidate B Pf))
  on_slot_calls : List (SlotInfo ID Hdr)

/-- Method `AuraConsensus::produce_candidate` (lines 197-225): read the wall clock
(panicking if it is before the Unix epoch), assemble the inherent data
(returning `None` on failure, via `?`), build the `SlotInfo`, hand it to the
worker, and wrap a successful result into a `ParachainCandidate`. -/
def produce_candidate (env : Env H PH PVD Hdr Prov ID B Pf E) (parent : Hdr)
    (relay_parent : PH) (validation_data : PVD) : Run ID Hdr B Pf :=
  match env.clock_now with
  | Except.error _ => { result := Except.error (), on_slot_calls := [] }
  | Except.ok timestamp =>
    match inherent_data env (env.head_hash parent) validation_data relay_parent with
    | none => { result := Except.ok none, on_slot_calls := [] }
    | some data =>
      let info := mkSlotInfo env parent timestamp data
      match env.on_slot info with
      | none => { result := Except.ok none, on_slot_calls := [info] }
      | some res =>
        { result := Except.ok (some { block := res.block, proof := res.storage_proof })
        , on_slot_calls := [info] }

end Model

/-!
The `parking_lot::Mutex` around `self.aura_worker`.  On lines 218-219 the code
reads

  let future = self.aura_worker.lock().on_slot(info);
  let res = future.await?;

The guard returned by `lock()` is a temporary of the first statement: it is
held while `on_slot` runs (synchronously constructing the boxed future) and is
dropped at the end of that statement — before `future.await`.  The transition
system below models the phases one invocation goes through around the lock and
which interleavings the mutex permits.
-/

/-- The phase of one `produce_candidate` invocation with respect to lines
218-219: `idle` before `lock()`, `locked` while the guard is held and
`on_slot` is being called, `awaiting` once the guard is dropped and
`future.await` is pending, `done` once the future has resolved. -/
inductive Phase where
  | idle
  | locked
  | awaiting
  | done
deriving DecidableEq

/-- Global state of `n` concurrent invocations sharing the one
`Arc<Mutex<...>>` worker: whether the mutex is held, and each invocation's
phase (entry `i` of the list). -/
structure LockState where
  mutex_held : Bool
  phases : List Phase
deriving DecidableEq

/-- The steps the code permits: `lock()` succeeds only when the mutex is free
and enters the locked `on_slot` call; the guard is dropped at the end of the
`let future = ...` statement, releasing the mutex with the future still
pending; the pending future later resolves, with no lock involved. -/
inductive LockStep : LockState → LockState → Prop where
  | acquire (s : LockState) (i : Nat) (hp : s.phases[i]? = some Phase.idle)
      (hl : s.mutex_held = false) :
      LockStep s ⟨true, s.phases.set i Phase.locked⟩
  | release (s : LockState) (i : Nat) (hp : s.phases[i]? = some Phase.locked) :
      LockStep s ⟨false, s.phases.set i Phase.awaiting⟩
  | resolve (s : LockState) (i : Nat) (hp : s.phases[i]? = some Phase.awaiting) :
      LockStep s ⟨s.mutex_held, s.phases.set i Phase.done⟩

/-- Initial state: mutex free, all `n` invocations about to execute line 218. -/
def initState (n : Nat) : LockState :=
  ⟨false, List.replicate n Phase.idle⟩

/-- States reachable by some interleaving of the `n` invocations. -/
def ReachableLS (n : Nat) (s : LockState) : Prop :=
  Relation.ReflTransGen LockStep (initState n) s

/-- Invocation `i`'s attempt is active in the sense of the claim: `on_slot`
has been called and the returned future has not yet resolved. -/
def attemptActive (s : LockState) (i : Nat) : Prop :=
  s.phases[i]? = some Phase.locked ∨ s.phases[i]? = some Phase.awaiting

/-- Invocation `i` currently holds the mutex (is inside the locked `on_slot`
call of line 218). -/
def holdsLock (s : LockState) (i : Nat) : Prop :=
  s.phases[i]? = some Phase.locked

/-- The mutex invariant: when the mutex is free nobody is in the locked
phase, and at most one invocation is in the locked phase at a time. -/
def LockInv (s : LockState) : Prop :=
  (s.mutex_held = false → ∀ i : Nat, s.phases[i]? ≠ some Phase.locked) ∧
    (∀ i j : Nat, s.phases[i]? = some Phase.locked → s.phases[j]? = some Phase.locked → i = j)

/-!
The `Clone` implementation (lines 79-88) and `AuraConsensus::new`
(lines 137-153).  Each field of `AuraConsensus` is an `Arc` (the worker an
`Arc<Mutex<dyn SlotWorker>>`); `Clone` clones each `Arc`, i.e. yields a new
handle to the very same referent, modelled as returning the same field value.
`new` calls `sc_consensus_aura::build_aura_worker` exactly once and wraps the
result in a fresh `Arc<Mutex<...>>`; worker construction is modelled with an
explicit allocation counter so "exactly one engine is built" is expressible.
-/

/-- Struct `AuraConsensus` (lines 66-77): the four `Arc` fields.  The type
parameters stand for the referents the `Arc`s point to. -/
structure AuraConsensus (CIDP RC RB W : Type) where
  inherent_data_providers : CIDP
  relay_chain_client : RC
  relay_chain_backend : RB
  aura_worker : W
deriving DecidableEq

/-- The `Clone` impl (lines 79-88): clone every `Arc`, i.e. keep every
referent. -/
def AuraConsensus.clone {CIDP RC RB W : Type}
    (c : AuraConsensus CIDP RC RB W) : AuraConsensus CIDP RC RB W :=
  { inherent_data_providers := c.inherent_data_providers
  , relay_chain_backend := c.relay_chain_backend
  , relay_chain_client := c.relay_chain_client
  , aura_worker := c.aura_worker }

/-- Allocation counter for slot workers: how many times
`sc_consensus_aura::build_aura_worker` has run. -/
structure WorkerAlloc where
  workers_built : Nat
deriving DecidableEq

/-- Function `build_aura_worker` (lines 137-145): constructs one new worker; the worker
is identified by its allocation index. -/
def build_aura_worker (st : WorkerAlloc) : WorkerAlloc × Nat :=
  ({ workers_built := st.workers_built + 1 }, st.workers_built)

/-- Method `AuraConsensus::new` (lines 137-153): build one worker and store the four
`Arc`s.  The non-worker capabilities are passed through unchanged. -/
def AuraConsensus.new {CIDP RC RB : Type} (st : WorkerAlloc) (cidp : CIDP)
    (rc : RC) (rb : RB) : WorkerAlloc × AuraConsensus CIDP RC RB Nat :=
  let p := build_aura_worker st
  (p.1,
    { inherent_data_providers := cidp
    , relay_chain_backend := rb
    , relay_chain_client := rc
    , aura_worker := p.2 })

/-!
Concrete instances used by the witness and counterexample theorems below.
All abstract types are instantiated with `Nat` (hashes, headers, provider
sets, inherent data, blocks, proofs and errors are just numbers here).
-/

/-- The duration of Scenario A: 36 s and 5 ms since the Unix epoch, i.e.
`as_millis = 36005`. -/
def d36005 : Duration :=
  ⟨36, 5000000, by norm_num, by norm_num⟩

/-- A later wall-clock reading: 48 s since the Unix epoch (48000 ms). -/
def d48000 : Duration :=
  ⟨48, 0, by norm_num, by norm_num⟩

/-- An environment in which everything succeeds: the wall clock reads
36005 ms past the epoch, the monotonic clock reads 36005 ms when the
descriptor is built, the factory returns the parent hash as provider set, the
provider set returns itself as inherent data, and the worker authors
block 123 with proof 1. -/
def natEnvOk : Env Nat Nat Nat Nat Nat Nat Nat Nat Nat :=
  { clock_now := Except.ok d36005
  , instant_now_ms := 36005
  , head_hash := fun h => h
  , create_inherent_data_providers := fun h _ => Except.ok h
  , create_inherent_data := fun p => Except.ok p
  , on_slot := fun _ => some { block := 123, storage_proof := 1 } }

/-- Like `natEnvOk`, but `create_inherent_data_providers` fails (error 7). -/
def natEnvFactoryFail : Env Nat Nat Nat Nat Nat Nat Nat Nat Nat :=
  { natEnvOk with create_inherent_data_providers := fun _ _ => Except.error 7 }

/-- Like `natEnvOk`, but the provider set's `create_inherent_data` fails
(error 9). -/
def natEnvDataFail : Env Nat Nat Nat Nat Nat Nat Nat Nat Nat :=
  { natEnvOk with create_inherent_data := fun _ => Except.error 9 }

/-- Like `natEnvOk`, but the system clock is before the Unix epoch, so
`duration_since(UNIX_EPOCH)` returns an error. -/
def natEnvClockErr : Env Nat Nat Nat Nat Nat Nat Nat Nat Nat :=
  { natEnvOk with clock_now := Except.error () }

/-- Like `natEnvOk`, but the monotonic clock reads 99999 ms when the
descriptor is built (the two clocks are not aligned). -/
def natEnvMisaligned : Env Nat Nat Nat Nat Nat Nat Nat Nat Nat :=
  { natEnvOk with instant_now_ms := 99999 }

/-- Like `natEnvOk`, but the monotonic clock reads 50000 ms when the
descriptor is built (inherent-data assembly took time). -/
def natEnvDelayed : Env Nat Nat Nat Nat Nat Nat Nat Nat Nat :=
  { natEnvOk with instant_now_ms := 50000 }

/-- Lock state after invocation 0 has acquired the mutex: it is inside the
locked `on_slot` call, invocation 1 is still idle. -/
def sLocked : LockState :=
  ⟨true, [Phase.locked, Phase.idle]⟩

/-- Lock state after invocation 0 has dropped the guard and is awaiting its
future while invocation 1 is inside the locked `on_slot` call: both attempts
are active at once. -/
def sOverlap : LockState :=
  ⟨true, [Phase.awaiting, Phase.locked]⟩

/-- Lock state in which both invocations have dropped the guard and are
awaiting their futures concurrently. -/
def sOverlap2 : LockState :=
  ⟨false, [Phase.awaiting, Phase.awaiting]⟩

/-- A concrete `AuraConsensus` value (the four `Arc` referents are
numbered 1-4). -/
def c0 : AuraConsensus Nat Nat Nat Nat :=
  ⟨1, 2, 3, 4⟩


/-!
Helper lemmas (shared): the `u64 → u128` arithmetic of the slot computation
and the mutex invariant.
-/

theorem Duration.as_millis_lt (d : Duration) : d.as_millis < 2 ^ 64 * 1000 := by
  have h1 := d.secs_lt
  have h2 := d.nanos_lt
  have h3 : d.nanos / 1000000 < 1000 := Nat.div_lt_of_lt_mul (by omega)
  have h64 : (2 : Nat) ^ 64 = 18446744073709551616 := by norm_num
  rw [Duration.as_millis, h64]
  rw [h64] at h1
  omega

theorem slotOfMillis_as_millis (d : Duration) :
    slotOfMillis d.as_millis = d.as_millis / 12000 := by
  rw [slotOfMillis]
  apply Nat.mod_eq_of_lt
  apply Nat.div_lt_of_lt_mul
  calc d.as_millis < 2 ^ 64 * 1000 := d.as_millis_lt
    _ ≤ 12000 * 2 ^ 64 := by ring_nf; omega

theorem lockInv_init (n : Nat) : LockInv (initState n) := by
  constructor
  · intro _ i h
    rw [initState] at h
    simp only [List.getElem?_replicate] at h
    split at h
    · exact Phase.noConfusion (Option.some.injEq _ _ ▸ h)
    · exact Option.noConfusion h
  · intro i j hi _
    rw [initState] at hi
    simp only [List.getElem?_replicate] at hi
    split at hi
    · exact absurd (Option.some.injEq _ _ ▸ hi) (by simp)
    · exact Option.noConfusion hi

theorem lockInv_step {s t : LockState} (hinv : LockInv s) (hst : LockStep s t) :
    LockInv t := by
  obtain ⟨hfree, huniq⟩ := hinv
  cases hst with
  | acquire i hp hl =>
    constructor
    · intro hcontra
      exact absurd hcontra (by simp)
    · intro a b ha hb
      have hlen : i < s.phases.length := (List.getElem?_eq_some.mp hp).1
      have key : ∀ c : Nat, (s.phases.set i Phase.locked)[c]? = some Phase.locked → c = i := by
        intro c hc
        by_cases hci : c = i
        · exact hci
        · rw [List.getElem?_set_ne (fun h => hci h.symm)] at hc
          exact absurd hc (hfree hl c)
      rw [key a ha, key b hb]
  | release i hp =>
    have huniq2 : ∀ c : Nat, (s.phases.set i Phase.awaiting)[c]? ≠ some Phase.locked := by
      intro c hc
      by_cases hci : c = i
      · subst hci
        have hlen : c < s.phases.length := (List.getElem?_eq_some.mp hp).1
        rw [List.getElem?_set_self hlen] at hc
        exact Phase.noConfusion (Option.some.injEq _ _ ▸ hc)
      · rw [List.getElem?_set_ne (fun h => hci h.symm)] at hc
        exact hci (huniq c i hc hp)
    exact ⟨fun _ c => huniq2 c, fun a b ha _ => absurd ha (huniq2 a)⟩
  | resolve i hp =>
    have keep : ∀ c : Nat, (s.phases.set i Phase.done)[c]? = some Phase.locked →
        s.phases[c]? = some Phase.locked := by
      intro c hc
      by_cases hci : c = i
      · subst hci
        have hlen : c < s.phases.length := (List.getElem?_eq_some.mp hp).1
        rw [List.getElem?_set_self hlen] at hc
        exact absurd (Option.some.injEq _ _ ▸ hc) (by simp)
      · rwa [List.getElem?_set_ne (fun h => hci h.symm)] at hc
    exact ⟨fun hm c hc => hfree hm c (keep c hc),
      fun a b ha hb => huniq a b (keep a ha) (keep b hb)⟩

theorem lockInv_reachable {n : Nat} {s : LockState} (h : ReachableLS n s) :
    LockInv s := by
  induction h with
  | refl => exact lockInv_init n
  | tail _ hstep ih => exact lockInv_step ih hstep


/-- Claim C1: if the inherent-data-provider factory call fails, then
`produce_candidate` returns `None` and the worker's `on_slot` is invoked zero
times in that invocation. -/
theorem produce_candidate_factory_error {H PH PVD Hdr Prov ID B Pf E : Type}
    (env : Env H PH PVD Hdr Prov ID B Pf E) (parent : Hdr) (relay_parent : PH)
    (validation_data : PVD) (d : Duration) (e : E)
    (hclock : env.clock_now = Except.ok d)
    (hfail : env.create_inherent_data_providers (env.head_hash parent)
      (relay_parent, validation_data) = Except.error e) :
    (produce_candidate env parent relay_parent validation_data).result = Except.ok none ∧
      (produce_candidate env parent relay_parent validation_data).on_slot_calls = [] := by
  rw [produce_candidate, hclock, inherent_data, hfail]
  exact ⟨rfl, rfl⟩

/-- Witness for C1: in `natEnvFactoryFail` the factory fails with error 7;
the invocation returns `None` with zero worker calls. -/
theorem produce_candidate_factory_error_witness :
    (produce_candidate natEnvFactoryFail 5 9 11).result = Except.ok none ∧
      (produce_candidate natEnvFactoryFail 5 9 11).on_slot_calls = [] :=
  produce_candidate_factory_error natEnvFactoryFail 5 9 11 d36005 7 rfl rfl

/-- Claim C2: if provider-set creation succeeds but `create_inherent_data`
fails, then `produce_candidate` returns `None` and the worker's `on_slot` is
invoked zero times in that invocation. -/
theorem produce_candidate_inherent_error {H PH PVD Hdr Prov ID B Pf E : Type}
    (env : Env H PH PVD Hdr Prov ID B Pf E) (parent : Hdr) (relay_parent : PH)
    (validation_data : PVD) (d : Duration) (providers : Prov) (e : E)
    (hclock : env.clock_now = Except.ok d)
    (hok : env.create_inherent_data_providers (env.head_hash parent)
      (relay_parent, validation_data) = Except.ok providers)
    (hfail : env.create_inherent_data providers = Except.error e) :
    (produce_candidate env parent relay_parent validation_data).result = Except.ok none ∧
      (produce_candidate env parent relay_parent validation_data).on_slot_calls = [] := by
  rw [produce_candidate, hclock, inherent_data, hok]
  simp only [hfail]
  exact ⟨trivial, trivial⟩

/-- Witness for C2: in `natEnvDataFail` the factory succeeds but the provider
set fails with error 9; the invocation returns `None` with zero worker
calls. -/
theorem produce_candidate_inherent_error_witness :
    (produce_candidate natEnvDataFail 5 9 11).result = Except.ok none ∧
      (produce_candidate natEnvDataFail 5 9 11).on_slot_calls = [] :=
  produce_candidate_inherent_error natEnvDataFail 5 9 11 d36005 5 9 rfl rfl rfl

/-- Claim C3: when inherent-data assembly succeeds, `produce_candidate` is an
identity-preserving passthrough of the worker's answer for the constructed
descriptor: `None` maps to `None`, and a result with block `B` and proof `P`
maps to exactly `ParachainCandidate {block := B, proof := P}`. -/
theorem produce_candidate_on_slot_passthrough {H PH PVD Hdr Prov ID B Pf E : Type}
    (env : Env H PH PVD Hdr Prov ID B Pf E) (parent : Hdr) (relay_parent : PH)
    (validation_data : PVD) (d : Duration) (data : ID)
    (hclock : env.clock_now = Except.ok d)
    (hdata : inherent_data env (env.head_hash parent) validation_data relay_parent
      = some data) :
    (env.on_slot (mkSlotInfo env parent d data) = none →
        (produce_candidate env parent relay_parent validation_data).result
          = Except.ok none) ∧
      ∀ res : SlotResult B Pf,
        env.on_slot (mkSlotInfo env parent d data) = some res →
          (produce_candidate env parent relay_parent validation_data).result
            = Except.ok (some { block := res.block, proof := res.storage_proof }) := by
  constructor
  · intro hnone
    rw [produce_candidate, hclock, hdata]
    simp only [hnone]
  · intro res hres
    rw [produce_candidate, hclock, hdata]
    simp only [hres]

/-- Witness for C3 (Scenario C): in `natEnvOk` the worker authors block 123
with proof 1, and the invocation returns exactly that candidate. -/
theorem produce_candidate_on_slot_passthrough_witness :
    (produce_candidate natEnvOk 5 9 11).result
      = Except.ok (some { block := 123, proof := 1 }) :=
  (produce_candidate_on_slot_passthrough natEnvOk 5 9 11 d36005 5 rfl rfl).2
    { block := 123, storage_proof := 1 } rfl


/-- Shared helper: when the clock read succeeds and inherent-data assembly
returns `some data`, the single `on_slot` call receives exactly the
descriptor `mkSlotInfo env parent d data`, whatever the worker answers. -/
theorem produce_candidate_calls {H PH PVD Hdr Prov ID B Pf E : Type}
    (env : Env H PH PVD Hdr Prov ID B Pf E) (parent : Hdr) (relay_parent : PH)
    (validation_data : PVD) (d : Duration) (data : ID)
    (hclock : env.clock_now = Except.ok d)
    (hdata : inherent_data env (env.head_hash parent) validation_data relay_parent
      = some data) :
    (produce_candidate env parent relay_parent validation_data).on_slot_calls
      = [mkSlotInfo env parent d data] := by
  rw [produce_candidate, hclock, hdata]
  cases henv : env.on_slot (mkSlotInfo env parent d data) <;> simp only [henv]

/-- Counterexample to claim C5 as stated: at wall-clock time T = 36005 ms the
descriptor's slot index is 3, but its deadline is not 36505 ms — the deadline
comes from the separate monotonic `Instant` clock (here reading 99999 ms at
descriptor construction), not from T. -/
theorem scenario_a_deadline_mismatch :
    natEnvMisaligned.clock_now = Except.ok d36005 ∧
      d36005.as_millis = 36005 ∧
      (produce_candidate natEnvMisaligned 5 9 11).on_slot_calls
        = [mkSlotInfo natEnvMisaligned 5 d36005 5] ∧
      (mkSlotInfo natEnvMisaligned 5 d36005 5).slot = 3 ∧
      (mkSlotInfo natEnvMisaligned 5 d36005 5).ends_at ≠ 36505 :=
  ⟨rfl, by decide, rfl, by decide, by decide⟩

/-- Claim C5 (amended): the slot index placed in the descriptor equals
floor(T / 12000) for the wall-clock reading T (the `u64` truncation never
bites, since T / 12000 < 2^64 for every representable duration); the deadline
is the monotonic-clock reading at descriptor construction plus 500 ms, and
equals 36505 ms in Scenario A only when that clock reads 36005 ms. -/
theorem slot_index_floor_div {H PH PVD Hdr Prov ID B Pf E : Type}
    (env : Env H PH PVD Hdr Prov ID B Pf E) (parent : Hdr) (relay_parent : PH)
    (validation_data : PVD) (d : Duration) (data : ID)
    (hclock : env.clock_now = Except.ok d)
    (hdata : inherent_data env (env.head_hash parent) validation_data relay_parent
      = some data) :
    (produce_candidate env parent relay_parent validation_data).on_slot_calls
        = [mkSlotInfo env parent d data] ∧
      (mkSlotInfo env parent d data).slot = d.as_millis / 12000 ∧
      (mkSlotInfo env parent d data).ends_at = env.instant_now_ms + 500 :=
  ⟨produce_candidate_calls env parent relay_parent validation_data d data hclock hdata,
    slotOfMillis_as_millis d, rfl⟩

/-- Witness for the amended C5 (Scenario A with aligned clocks): at
T = 36005 ms with the monotonic clock also reading 36005 ms, the descriptor's
slot index is 3 and its deadline is 36505 ms. -/
theorem slot_index_floor_div_witness :
    (mkSlotInfo natEnvOk 5 d36005 5).slot = 3 ∧
      (mkSlotInfo natEnvOk 5 d36005 5).ends_at = 36505 := by
  have h := slot_index_floor_div natEnvOk 5 9 11 d36005 5 rfl rfl
  exact ⟨h.2.1.trans (by decide), h.2.2.trans (by decide)⟩

/-- Counterexample to claim C6 as stated: a descriptor constructed by
`produce_candidate` whose deadline is not its timestamp plus 500 ms — the
monotonic clock reads 50000 ms at construction (inherent-data assembly took
time), so the deadline is 50500 ms while timestamp + 500 is 36505 ms. -/
theorem deadline_not_timestamp_plus_budget :
    (produce_candidate natEnvDelayed 5 9 11).on_slot_calls
        = [mkSlotInfo natEnvDelayed 5 d36005 5] ∧
      (mkSlotInfo natEnvDelayed 5 d36005 5).timestamp = d36005 ∧
      (mkSlotInfo natEnvDelayed 5 d36005 5).ends_at ≠ d36005.as_millis + 500 :=
  ⟨rfl, rfl, by decide⟩

/-- Claim C6 (amended): in every descriptor constructed by
`produce_candidate`, the deadline equals the monotonic-clock instant sampled
at descriptor construction (after inherent-data assembly) plus the fixed
500 ms budget — independent of the slot duration, but not in general equal to
the descriptor's wall-clock timestamp plus 500 ms. -/
theorem deadline_instant_plus_500 {H PH PVD Hdr Prov ID B Pf E : Type}
    (env : Env H PH PVD Hdr Prov ID B Pf E) (parent : Hdr) (relay_parent : PH)
    (validation_data : PVD) (d : Duration) (data : ID)
    (hclock : env.clock_now = Except.ok d)
    (hdata : inherent_data env (env.head_hash parent) validation_data relay_parent
      = some data) :
    (produce_candidate env parent relay_parent validation_data).on_slot_calls
        = [mkSlotInfo env parent d data] ∧
      (mkSlotInfo env parent d data).ends_at = env.instant_now_ms + 500 :=
  ⟨produce_candidate_calls env parent relay_parent validation_data d data hclock hdata,
    rfl⟩

/-- Witness for the amended C6: in the delayed environment the deadline is
the monotonic reading 50000 ms plus 500 ms, i.e. 50500 ms. -/
theorem deadline_instant_plus_500_witness :
    (mkSlotInfo natEnvDelayed 5 d36005 5).ends_at = natEnvDelayed.instant_now_ms + 500 ∧
      natEnvDelayed.instant_now_ms + 500 = 50500 :=
  ⟨(deadline_instant_plus_500 natEnvDelayed 5 9 11 d36005 5 rfl rfl).2, by decide⟩

/-- Counterexample to claim C7 as stated: when the system clock is before the
Unix epoch, `duration_since(UNIX_EPOCH)` fails and the `.unwrap()` on line 205
panics — the invocation aborts instead of returning `None`. -/
theorem produce_candidate_panics_before_epoch :
    (produce_candidate natEnvClockErr 5 9 11).result = Except.error () ∧
      (produce_candidate natEnvClockErr 5 9 11).on_slot_calls = [] :=
  ⟨rfl, rfl⟩

/-- Claim C7 (amended): provided the system clock is at or after the Unix
epoch, `produce_candidate` never panics: every failure path collapses to
returning a value (`None` or a candidate). -/
theorem produce_candidate_no_panic_after_epoch {H PH PVD Hdr Prov ID B Pf E : Type}
    (env : Env H PH PVD Hdr Prov ID B Pf E) (parent : Hdr) (relay_parent : PH)
    (validation_data : PVD) (d : Duration)
    (hclock : env.clock_now = Except.ok d) :
    ∃ c, (produce_candidate env parent relay_parent validation_data).result
      = Except.ok c := by
  rw [produce_candidate, hclock]
  cases hid : inherent_data env (env.head_hash parent) validation_data relay_parent with
  | none => exact ⟨none, by simp only [hid]⟩
  | some data =>
    cases hs : env.on_slot (mkSlotInfo env parent d data) with
    | none => exact ⟨none, by simp only [hid, hs]⟩
    | some res =>
      exact ⟨some { block := res.block, proof := res.storage_proof },
        by simp only [hid, hs]⟩

/-- Witness for the amended C7: in the all-success environment the result is
an `ok` value. -/
theorem produce_candidate_no_panic_after_epoch_witness :
    ∃ c, (produce_candidate natEnvOk 5 9 11).result = Except.ok c :=
  produce_candidate_no_panic_after_epoch natEnvOk 5 9 11 d36005 rfl

/-- Claim C8: the slot-index function computed by `produce_candidate` (with
its fixed slot duration of 12000 ms) is non-decreasing in the wall-clock
reading: later clock readings never yield a smaller slot index. -/
theorem slot_index_monotone (d1 d2 : Duration)
    (h : d1.as_millis ≤ d2.as_millis) :
    slotOfMillis d1.as_millis ≤ slotOfMillis d2.as_millis := by
  rw [slotOfMillis_as_millis, slotOfMillis_as_millis]
  exact Nat.div_le_div_right h

/-- Witness for C8: 36005 ms ≤ 48000 ms, and the corresponding slot indices
are in order. -/
theorem slot_index_monotone_witness :
    d36005.as_millis ≤ d48000.as_millis ∧
      slotOfMillis d36005.as_millis ≤ slotOfMillis d48000.as_millis :=
  ⟨by decide, slot_index_monotone d36005 d48000 (by decide)⟩

/-- Claim C9: in every successful invocation the worker is called exactly
once, with a descriptor carrying exactly: the computed slot index, the fixed
duration 12000 ms, the inherent-data bag assembled for
`(parent.hash(), (relay_parent, validation_data))`, the parent header as
chain head, the wall-clock timestamp taken at the start of the invocation,
and the computed deadline. -/
theorem descriptor_exact_contents {H PH PVD Hdr Prov ID B Pf E : Type}
    (env : Env H PH PVD Hdr Prov ID B Pf E) (parent : Hdr) (relay_parent : PH)
    (validation_data : PVD) (d : Duration) (data : ID)
    (hclock : env.clock_now = Except.ok d)
    (hdata : inherent_data env (env.head_hash parent) validation_data relay_parent
      = some data) :
    (produce_candidate env parent relay_parent validation_data).on_slot_calls
      = [{ slot := slotOfMillis d.as_millis
          , duration := 12000
          , inherent_data := data
          , chain_head := parent
          , timestamp := d
          , ends_at := env.instant_now_ms + 500 }] :=
  produce_candidate_calls env parent relay_parent validation_data d data hclock hdata

/-- Witness for C9: the concrete descriptor of the all-success run, with the
slot index evaluating to 3. -/
theorem descriptor_exact_contents_witness :
    (produce_candidate natEnvOk 5 9 11).on_slot_calls
        = [{ slot := slotOfMillis d36005.as_millis
            , duration := 12000
            , inherent_data := 5
            , chain_head := 5
            , timestamp := d36005
            , ends_at := natEnvOk.instant_now_ms + 500 }] ∧
      slotOfMillis d36005.as_millis = 3 :=
  ⟨descriptor_exact_contents natEnvOk 5 9 11 d36005 5 rfl rfl, by decide⟩


/-- Counterexample to claim C4 as stated: a legal interleaving of two
invocations in which the engine's attempt (from the `on_slot` call through
resolution of the returned future) is active for both invocations at once —
invocation 0 acquires, calls `on_slot`, drops the guard at the end of the
statement, and while its future is still pending invocation 1 acquires and
calls `on_slot`. -/
theorem attempt_overlap_trace :
    ReachableLS 2 sOverlap ∧ attemptActive sOverlap 0 ∧ attemptActive sOverlap 1 ∧
      (0 : Nat) ≠ 1 := by
  refine ⟨?_, Or.inr rfl, Or.inl rfl, by decide⟩
  have s1 : LockStep (initState 2) sLocked :=
    LockStep.acquire (initState 2) 0 rfl rfl
  have s2 : LockStep sLocked ⟨false, [Phase.awaiting, Phase.idle]⟩ :=
    LockStep.release sLocked 0 rfl
  have s3 : LockStep ⟨false, [Phase.awaiting, Phase.idle]⟩ sOverlap :=
    LockStep.acquire ⟨false, [Phase.awaiting, Phase.idle]⟩ 1 rfl rfl
  exact Relation.ReflTransGen.head s1
    (Relation.ReflTransGen.head s2 (Relation.ReflTransGen.single s3))

/-- Claim C4 (amended): in every reachable state of any interleaving of N
concurrent invocations, at most one invocation at a time is inside the locked
`on_slot` call (the mutex serializes creation of the authoring future), and
while the mutex is held no idle invocation can enter the locked call in one
step; the resolution of the returned futures, however, happens outside the
lock and may overlap between invocations. -/
theorem locked_call_mutual_exclusion {n : Nat} {s : LockState}
    (h : ReachableLS n s) :
    (∀ i j : Nat, holdsLock s i → holdsLock s j → i = j) ∧
      (s.mutex_held = true → ∀ t : LockState, LockStep s t → ∀ i : Nat,
        s.phases[i]? = some Phase.idle → ¬ holdsLock t i) := by
  constructor
  · exact fun i j hi hj => (lockInv_reachable h).2 i j hi hj
  · intro hm t hstep i hidle
    cases hstep with
    | acquire j hp hl =>
      rw [hm] at hl
      exact fun _ => Bool.noConfusion hl
    | release j hp =>
      intro hlock
      simp only [holdsLock] at hlock
      by_cases hij : i = j
      · subst hij
        rw [hidle] at hp
        simp at hp
      · rw [List.getElem?_set_ne (fun hh => hij hh.symm), hidle] at hlock
        simp at hlock
    | resolve j hp =>
      intro hlock
      simp only [holdsLock] at hlock
      by_cases hij : i = j
      · subst hij
        rw [hidle] at hp
        simp at hp
      · rw [List.getElem?_set_ne (fun hh => hij hh.symm), hidle] at hlock
        simp at hlock

/-- Witness for the amended C4: after invocation 0 acquires the mutex, it is
the unique holder of the locked `on_slot` call. -/
theorem locked_call_mutual_exclusion_witness :
    holdsLock sLocked 0 ∧ (0 : Nat) = 0 :=
  ⟨rfl,
    (locked_call_mutual_exclusion
        (Relation.ReflTransGen.single
          (LockStep.acquire (initState 2) 0 rfl rfl))).1
      0 0 rfl rfl⟩

/-- Counterexample to claim C10 as stated: clones do share the one gate
(cloning returns the same referents), yet the at-most-one-attempt-at-a-time
property fails on the shared instance — a legal interleaving leaves both
invocations' futures pending concurrently after each took its turn in the
locked `on_slot` call. -/
theorem clone_shared_gate_overlap :
    AuraConsensus.clone c0 = c0 ∧
      (AuraConsensus.clone c0).aura_worker = c0.aura_worker ∧
      ReachableLS 2 sOverlap2 ∧ attemptActive sOverlap2 0 ∧
      attemptActive sOverlap2 1 ∧ (0 : Nat) ≠ 1 := by
  refine ⟨rfl, rfl, ?_, Or.inr rfl, Or.inr rfl, by decide⟩
  have s1 : LockStep (initState 2) sLocked :=
    LockStep.acquire (initState 2) 0 rfl rfl
  have s2 : LockStep sLocked ⟨false, [Phase.awaiting, Phase.idle]⟩ :=
    LockStep.release sLocked 0 rfl
  have s3 : LockStep ⟨false, [Phase.awaiting, Phase.idle]⟩ sOverlap :=
    LockStep.acquire ⟨false, [Phase.awaiting, Phase.idle]⟩ 1 rfl rfl
  have s4 : LockStep sOverlap sOverlap2 :=
    LockStep.release sOverlap 1 rfl
  exact Relation.ReflTransGen.head s1
    (Relation.ReflTransGen.head s2
      (Relation.ReflTransGen.head s3 (Relation.ReflTransGen.single s4)))

/-- Claim C10 (amended): cloning an `AuraConsensus` yields a handle to the
very same engine, gate, provider factory and relay-chain handles (cloning is
the identity on every referent); construction runs `build_aura_worker`
exactly once, incrementing the number of built engines by exactly one
regardless of how many clones are later made; and the shared gate keeps the
locked `on_slot` call mutually exclusive across all users of the instance
(the resolution of the returned futures is not serialized, see C4). -/
theorem clone_shares_and_single_engine :
    (∀ (CIDP RC RB W : Type) (c : AuraConsensus CIDP RC RB W),
        AuraConsensus.clone c = c) ∧
      (∀ (CIDP RC RB : Type) (st : WorkerAlloc) (cidp : CIDP) (rc : RC) (rb : RB),
        (AuraConsensus.new st cidp rc rb).1.workers_built = st.workers_built + 1 ∧
          (AuraConsensus.new st cidp rc rb).2.aura_worker = st.workers_built) ∧
      (∀ (n : Nat) (s : LockState), ReachableLS n s →
        ∀ i j : Nat, holdsLock s i → holdsLock s j → i = j) :=
  ⟨fun _ _ _ _ _ => rfl,
    fun _ _ _ _ _ _ _ => ⟨rfl, rfl⟩,
    fun _ _ h i j hi hj => (lockInv_reachable h).2 i j hi hj⟩

/-- Witness for the amended C10: a concrete clone shares all referents, a
concrete construction builds exactly one engine, and in a concrete reachable
state the lock holder is unique. -/
theorem clone_shares_and_single_engine_witness :
    AuraConsensus.clone c0 = c0 ∧
      (AuraConsensus.new ⟨0⟩ (1 : Nat) (2 : Nat) (3 : Nat)).1.workers_built = 1 ∧
      (0 : Nat) = 0 :=
  ⟨clone_shares_and_single_engine.1 Nat Nat Nat Nat c0,
    (clone_shares_and_single_engine.2.1 Nat Nat Nat ⟨0⟩ 1 2 3).1,
    clone_shares_and_single_engine.2.2 2 sLocked
      (Relation.ReflTransGen.single (LockStep.acquire (initState 2) 0 rfl rfl))
      0 0 rfl rfl⟩

end Cumulus
